import Mathlib

/-!
Verification of the womscp-server configuration-resolution and
schema-provisioning pipeline (src/init.rs).

The first part embeds the configuration resolver: `ServerConfig`,
`ServerConfig.default`, the `TryFrom<PathBuf>` conversion and
`ServerConfig.new`.  The file-system interaction of the resolver is
abstracted by a `FileState`: either no file exists at the resolution
path, or the file exists but is unreadable, or it is readable and its
contents are abstracted by the outcome of parsing them with the external
toml crate (a diagnostic message on parse failure, a key/value table on
success).  Rust computations that may panic are modelled by
`RustOutcome`, which distinguishes a returned value, a returned
`io::Error`, and a panic.

Crucial detail of the source, modelled faithfully: the resolver reads
keys with the indexing operator `config["key"]` of `toml::map::Map`,
whose `Index` implementation panics with the message
"no entry found for key" when the key is absent; the type-directed
fallback to the default only happens for a key that is present with a
value of the wrong type (`as_str` / `as_integer` returning `None`).
The integer narrowing `as u16` / `as u8` of Rust reduces the 64-bit
document integer modulo 2^16 / 2^8.
-/

/-- A toml value, as far as the resolver observes it: `as_str` succeeds
exactly on the string variant and `as_integer` exactly on the integer
variant.  The remaining variants (boolean, float) only matter as
witnesses of a wrongly typed value. -/
inductive TomlValue where
  | str (s : String)
  | int (i : Int)
  | bool (b : Bool)
  | float
deriving DecidableEq, Repr

/-- `Value::as_str` of the toml crate. -/
def TomlValue.asStr : TomlValue → Option String
  | TomlValue.str s => some s
  | _ => none

/-- `Value::as_integer` of the toml crate. -/
def TomlValue.asInteger : TomlValue → Option Int
  | TomlValue.int i => some i
  | _ => none

/-- A parsed toml table: an association list of keys and values. -/
def TomlTable := List (String × TomlValue)

instance : DecidableEq TomlTable := by
  unfold TomlTable
  infer_instance

/-- Key lookup in a toml table, the total `Map::get` underlying the
panicking indexing operator. -/
def tableIndex (t : TomlTable) (k : String) : Option TomlValue :=
  match t with
  | [] => none
  | (k0, v) :: rest => if k0 = k then some v else tableIndex rest k

/-- An `io::Error`: its `ErrorKind` and its message. -/
structure IOError where
  kind : String
  msg : String
deriving DecidableEq, Repr

/-- Outcome of a Rust computation: a returned value, a returned
`io::Error`, or a panic carrying the panic message. -/
inductive RustOutcome (α : Type) where
  | ok (val : α)
  | err (e : IOError)
  | panicked (msg : String)
deriving DecidableEq, Repr

/-- The server configuration value (struct `ServerConfig`).  The Rust
fields `microcontroller_count : u16` and
`sensors_per_microcontroller : u8` are represented by natural numbers;
all values the program constructs lie below 2^16 and 2^8 respectively. -/
structure ServerConfig where
  address : String
  database : String
  microcontroller_count : Nat
  sensors_per_microcontroller : Nat
deriving DecidableEq, Repr

/-- `ServerConfig::default`: the built-in defaults. -/
def ServerConfig.default : ServerConfig :=
  { address := "127.0.0.1:3000"
    database := "sqlite:w_orchid.db"
    microcontroller_count := 1
    sensors_per_microcontroller := 2 }

/-- Rust `i64 as u16`: reduction modulo 2^16 (Euclidean, so negative
inputs wrap as in Rust two-complement narrowing). -/
def intAsU16 (i : Int) : Nat := (i % 65536).toNat

/-- Rust `i64 as u8`: reduction modulo 2^8. -/
def intAsU8 (i : Int) : Nat := (i % 256).toNat

/-- The body of `TryFrom<PathBuf> for ServerConfig` after a successful
read and parse: starting from the defaults, each of the four keys is
read with the panicking indexing operator (absent key leads to a panic with
the message "no entry found for key" of `toml::map::Map::index`), and a
present value of the wrong type silently keeps the default for that
field. -/
def tryFromTable (config : TomlTable) : RustOutcome ServerConfig :=
  let sc := ServerConfig.default
  match tableIndex config "address" with
  | none => RustOutcome.panicked "no entry found for key"
  | some v0 =>
    let a := match v0.asStr with
      | some s => s
      | none => sc.address
    match tableIndex config "database" with
    | none => RustOutcome.panicked "no entry found for key"
    | some v1 =>
      let d := match v1.asStr with
        | some s => s
        | none => sc.database
      match tableIndex config "microcontroller_count" with
      | none => RustOutcome.panicked "no entry found for key"
      | some v2 =>
        let mc := match v2.asInteger with
          | some i => intAsU16 i
          | none => sc.microcontroller_count
        match tableIndex config "sensors_per_microcontroller" with
        | none => RustOutcome.panicked "no entry found for key"
        | some v3 =>
          let sp := match v3.asInteger with
            | some i => intAsU8 i
            | none => sc.sensors_per_microcontroller
          RustOutcome.ok
            { address := a
              database := d
              microcontroller_count := mc
              sensors_per_microcontroller := sp }

/-- The state of the file at the resolution path: absent, present but
unreadable, or readable with contents abstracted by their parse
outcome. -/
inductive FileState where
  | absent
  | unreadable (e : IOError)
  | readable (parsed : Except String TomlTable)

/-- `TryFrom<PathBuf> for ServerConfig`: read the file (propagating the
`io::Error` of `fs::read_to_string`), parse it (a parse failure is
returned as an `io::Error` of kind `InvalidInput` carrying the
diagnostic message of the parser), then overlay the table onto the
defaults. -/
def tryFromPathBuf : FileState → RustOutcome ServerConfig
  | FileState.absent => RustOutcome.err { kind := "NotFound", msg := "No such file or directory" }
  | FileState.unreadable e => RustOutcome.err e
  | FileState.readable (Except.error diag) =>
      RustOutcome.err { kind := "InvalidInput", msg := diag }
  | FileState.readable (Except.ok t) => tryFromTable t

/-- `ServerConfig::new`: if no file exists at the default path
`config.toml`, return the defaults; otherwise convert the file and
`unwrap` the result, so a conversion failure becomes a panic.  `new`
returns `Self`, never an error value. -/
def ServerConfig.new : FileState → RustOutcome ServerConfig
  | FileState.absent => RustOutcome.ok ServerConfig.default
  | fs =>
    match tryFromPathBuf fs with
    | RustOutcome.ok c => RustOutcome.ok c
    | RustOutcome.err e =>
        RustOutcome.panicked ("called Result::unwrap() on an Err value: " ++ e.msg)
    | RustOutcome.panicked m => RustOutcome.panicked m

/-!
Second part: the schema provisioner `server_init`.

The sqlite database reached through the connection pool is modelled by
an explicit `DBState`: one existence flag per table and the list of
rows of each table, in insertion order.  Executing the schema-creation
batch and the seeding inserts is modelled statement by statement with
sqlite semantics: `CREATE TABLE` fails when the table already exists
(the batch stops at the first failing statement, earlier statements are
not rolled back), an insert fails when the table is absent, when the
primary key is duplicated, or when a foreign key has no parent row.
`server_init` panics on the first failing statement — the pool is closed
only on the success path — and `InitResult` records the final database
state, the issued insert statements in order, whether the pool was
closed, and the panic message if any.
-/

/-- A row of the `SensorData` table. -/
structure SensorDataRow where
  id : Nat
  timepoint : String
  m_id : Nat
  s_id : Nat
  sensor_type : Nat
  sensor_data : Nat
  dummy : Bool
deriving DecidableEq, Repr

/-- The state of the sqlite database: which of the three tables exist,
and the rows of each table in insertion order. -/
structure DBState where
  hasMicrocontrollers : Bool
  hasSensors : Bool
  hasSensorData : Bool
  micros : List Nat
  sensors : List (Nat × Nat)
  sensorData : List SensorDataRow
deriving DecidableEq, Repr

/-- The database right after `create_if_missing` created the file: no
tables, no rows. -/
def DBState.fresh : DBState :=
  { hasMicrocontrollers := false
    hasSensors := false
    hasSensorData := false
    micros := []
    sensors := []
    sensorData := [] }

/-- Well-formedness of a database state: a table that does not exist
holds no rows. -/
def DBState.wf (db : DBState) : Prop :=
  (db.hasMicrocontrollers = false → db.micros = []) ∧
  (db.hasSensors = false → db.sensors = []) ∧
  (db.hasSensorData = false → db.sensorData = [])

instance (db : DBState) : Decidable db.wf := by
  unfold DBState.wf
  infer_instance

/-- Outcome of one sql statement: the new database state, or a failure
message together with the state at the failure. -/
inductive SqlResult where
  | ok (db : DBState)
  | fail (msg : String) (db : DBState)
deriving DecidableEq, Repr

/-- `CREATE TABLE Microcontrollers(...)`: fails if the table exists,
otherwise creates it empty. -/
def createMicrocontrollersTable (db : DBState) : SqlResult :=
  if db.hasMicrocontrollers = true then
    SqlResult.fail "table Microcontrollers already exists" db
  else
    SqlResult.ok { db with hasMicrocontrollers := true, micros := [] }

/-- `CREATE TABLE Sensors(...)`. -/
def createSensorsTable (db : DBState) : SqlResult :=
  if db.hasSensors = true then
    SqlResult.fail "table Sensors already exists" db
  else
    SqlResult.ok { db with hasSensors := true, sensors := [] }

/-- `CREATE TABLE SensorData(...)`. -/
def createSensorDataTable (db : DBState) : SqlResult :=
  if db.hasSensorData = true then
    SqlResult.fail "table SensorData already exists" db
  else
    SqlResult.ok { db with hasSensorData := true, sensorData := [] }

/-- The schema-creation batch: the three `CREATE TABLE` statements in
dependency order; the batch stops at the first failure, keeping the
effect of the earlier statements. -/
def execCreateBatch (db : DBState) : SqlResult :=
  match createMicrocontrollersTable db with
  | SqlResult.fail msg db1 => SqlResult.fail msg db1
  | SqlResult.ok db1 =>
    match createSensorsTable db1 with
    | SqlResult.fail msg db2 => SqlResult.fail msg db2
    | SqlResult.ok db2 =>
      match createSensorDataTable db2 with
      | SqlResult.fail msg db3 => SqlResult.fail msg db3
      | SqlResult.ok db3 => SqlResult.ok db3

/-- `INSERT INTO Microcontrollers VALUES($1)` with the explicit id
`m`: fails on a missing table or a duplicate primary key. -/
def insertMicro (db : DBState) (m : Nat) : SqlResult :=
  if db.hasMicrocontrollers = false then
    SqlResult.fail "no such table: Microcontrollers" db
  else if m ∈ db.micros then
    SqlResult.fail "UNIQUE constraint failed: Microcontrollers.id" db
  else
    SqlResult.ok { db with micros := db.micros ++ [m] }

/-- `INSERT INTO Sensors VALUES($1, $2)`: fails on a missing table, a
duplicate composite primary key, or a violated foreign key to
`Microcontrollers` (sqlx enables the sqlite foreign-key pragma by
default). -/
def insertSensor (db : DBState) (m s : Nat) : SqlResult :=
  if db.hasSensors = false then
    SqlResult.fail "no such table: Sensors" db
  else if (m, s) ∈ db.sensors then
    SqlResult.fail "UNIQUE constraint failed: Sensors" db
  else if m ∉ db.micros then
    SqlResult.fail "FOREIGN KEY constraint failed" db
  else
    SqlResult.ok { db with sensors := db.sensors ++ [(m, s)] }

/-- An insert statement issued by the seeding loop, with its bound
values. -/
inductive DbOp where
  | insertMicroOp (m : Nat)
  | insertSensorOp (m : Nat) (s : Nat)
deriving DecidableEq, Repr

/-- Running state of the seeding loop: the database plus the insert
statements issued so far, in order. -/
structure RunState where
  db : DBState
  ops : List DbOp
deriving DecidableEq, Repr

/-- Outcome of a piece of the seeding loop: either it completed, or it
panicked with a message, in the state reached at the failure. -/
inductive RunResult where
  | ok (st : RunState)
  | panicked (msg : String) (st : RunState)
deriving DecidableEq, Repr

/-- The inner seeding loop `for s_id in 0..sensors_per_microcontroller`
for one microcontroller `m`, over the list of remaining sensor ids: each
failed insert panics with a message naming the offending indices. -/
def seedSensors (m : Nat) : List Nat → RunState → RunResult
  | [], st => RunResult.ok st
  | s :: rest, st =>
    match insertSensor st.db m s with
    | SqlResult.fail msg db =>
        RunResult.panicked
          ("Failed to insert into Sensors, s_id=" ++ toString s ++
            ", m_id=" ++ toString m ++ ". " ++ msg)
          { db := db, ops := st.ops ++ [DbOp.insertSensorOp m s] }
    | SqlResult.ok db =>
        seedSensors m rest { db := db, ops := st.ops ++ [DbOp.insertSensorOp m s] }

/-- The outer seeding loop `for m_id in 0..microcontroller_count`, over
the list of remaining microcontroller ids: the row of each
microcontroller is inserted before its sensor rows. -/
def seedMicros (S : Nat) : List Nat → RunState → RunResult
  | [], st => RunResult.ok st
  | m :: rest, st =>
    match insertMicro st.db m with
    | SqlResult.fail msg db =>
        RunResult.panicked ("Failed to insert into Microntrollers. " ++ msg)
          { db := db, ops := st.ops ++ [DbOp.insertMicroOp m] }
    | SqlResult.ok db =>
      match seedSensors m (List.range S) { db := db, ops := st.ops ++ [DbOp.insertMicroOp m] } with
      | RunResult.panicked msg st2 => RunResult.panicked msg st2
      | RunResult.ok st2 => seedMicros S rest st2

/-- Result of `server_init`: the final database state, the issued
insert statements in order, whether the pool was closed, and the panic
message if the run panicked instead of returning. -/
structure InitResult where
  db : DBState
  ops : List DbOp
  closed : Bool
  panicMsg : Option String
deriving DecidableEq, Repr

/-- `server_init`: open the pool (creating the database file if
missing), run the schema-creation batch — a failure there panics before
any insert is issued — then run the seeding loops, and close the pool on
the success path only. -/
def server_init (server_config : ServerConfig) (db0 : DBState) : InitResult :=
  match execCreateBatch db0 with
  | SqlResult.fail msg db =>
      { db := db
        ops := []
        closed := false
        panicMsg := some ("Failed to create database tables. " ++ msg) }
  | SqlResult.ok db =>
    match seedMicros server_config.sensors_per_microcontroller
        (List.range server_config.microcontroller_count) { db := db, ops := [] } with
    | RunResult.panicked msg st =>
        { db := st.db, ops := st.ops, closed := false, panicMsg := some msg }
    | RunResult.ok st =>
        { db := st.db, ops := st.ops, closed := true, panicMsg := none }

/-- The sensor rows implied by a fleet of `M` microcontrollers with `S`
sensors each, in microcontroller-major, sensor-minor order. -/
def sensorPairs (M S : Nat) : List (Nat × Nat) :=
  (List.range M).flatMap (fun m => (List.range S).map (fun s => (m, s)))

/-- The seeding statements in program order: for each microcontroller,
its own row first, then its sensor rows in sensor order. -/
def seedOps (M S : Nat) : List DbOp :=
  (List.range M).flatMap
    (fun m => DbOp.insertMicroOp m :: (List.range S).map (fun s => DbOp.insertSensorOp m s))

/-- Cascading deletion of the `Microcontrollers` row with id `i`, as
sqlite executes it over the provisioned schema: the row itself is
removed; the `ON DELETE CASCADE` clause of the foreign key
`Sensors.m_id REFERENCES Microcontrollers(id)` removes every `Sensors`
row whose `m_id` is `i`; a `SensorData` row is removed when the
`ON DELETE CASCADE` clause of its composite foreign key
`(m_id, s_id) REFERENCES Sensors(m_id, s_id)` fires because its parent
sensor row was just removed, or when the clause of its direct foreign
key `m_id REFERENCES Microcontrollers(id)` fires. -/
def cascadeDeleteMicrocontroller (db : DBState) (i : Nat) : DBState :=
  let deadSensors := db.sensors.filter (fun p => decide (p.1 = i))
  { db with
    micros := db.micros.filter (fun m => decide (m ≠ i))
    sensors := db.sensors.filter (fun p => decide (p.1 ≠ i))
    sensorData := db.sensorData.filter
      (fun r => decide (¬((r.m_id, r.s_id) ∈ deadSensors ∨ r.m_id = i))) }

/-!
Theorems.
-/

/-- Helper: `tryFromTable` never returns an error value; its only
outcomes are a configuration or a panic. -/
theorem tryFromTable_ne_err (t : TomlTable) (e : IOError) :
    tryFromTable t ≠ RustOutcome.err e := by
  unfold tryFromTable
  cases tableIndex t "address" with
  | none => simp
  | some v0 =>
    cases tableIndex t "database" with
    | none => simp
    | some v1 =>
      cases tableIndex t "microcontroller_count" with
      | none => simp
      | some v2 =>
        cases tableIndex t "sensors_per_microcontroller" with
        | none => simp
        | some v3 => simp

/-- C4: when no file exists at the resolution path, `ServerConfig::new`
succeeds without reading anything and returns exactly the default
quadruple 127.0.0.1:3000, sqlite:w_orchid.db, 1, 2. -/
theorem new_absent_returns_default_quadruple :
    ServerConfig.new FileState.absent = RustOutcome.ok
      { address := "127.0.0.1:3000"
        database := "sqlite:w_orchid.db"
        microcontroller_count := 1
        sensors_per_microcontroller := 2 } := rfl

/-- C5: when the config file exists and is readable but its contents
are not a well-formed toml table, resolution fails with an error of
kind `InvalidInput` carrying the diagnostic message of the parser, and
produces no configuration value. -/
theorem tryFrom_parse_failure_is_error (diag : String) :
    tryFromPathBuf (FileState.readable (Except.error diag)) =
      RustOutcome.err { kind := "InvalidInput", msg := diag } := rfl

/-- C1 (counter-evaluation): a well-formed document in which exactly the
recognized key `address` is absent, the other three recognized keys
being present and well-typed, makes resolution panic with the
indexing-operator message instead of succeeding with the default for
`address`. -/
theorem missing_key_panics :
    tryFromPathBuf (FileState.readable (Except.ok
      [("database", TomlValue.str "sqlite:x.db"),
       ("microcontroller_count", TomlValue.int 3),
       ("sensors_per_microcontroller", TomlValue.int 4)])) =
      RustOutcome.panicked "no entry found for key" := rfl

/-- C3 (counter-evaluation): a well-formed document in which the
recognized key `address` is present with a wrongly typed (integer)
value does not make resolution succeed: the wrongly typed `address`
itself falls back to the default, but resolution then panics while
indexing the absent key `database`, so the claimed unconditional
success fails. -/
theorem mistyped_key_resolution_panics :
    tryFromTable [("address", TomlValue.int 5)] =
      RustOutcome.panicked "no entry found for key" := rfl

/-- C9: whenever the four recognized keys are all present (so that the
panicking indexing operator succeeds) and the two count keys hold
integers `v` and `w`, resolution succeeds and the resolved
`microcontroller_count` is `v` reduced modulo 2^16 while the resolved
`sensors_per_microcontroller` is `w` reduced modulo 2^8: oversized
integers never make resolution fail, they silently wrap. -/
theorem resolution_wraps_integers (t : TomlTable) (a d : TomlValue) (v w : Int)
    (ha : tableIndex t "address" = some a)
    (hd : tableIndex t "database" = some d)
    (hv : tableIndex t "microcontroller_count" = some (TomlValue.int v))
    (hw : tableIndex t "sensors_per_microcontroller" = some (TomlValue.int w)) :
    ∃ c, tryFromTable t = RustOutcome.ok c ∧
      c.microcontroller_count = (v % 65536).toNat ∧
      c.sensors_per_microcontroller = (w % 256).toNat := by
  unfold tryFromTable
  rw [ha, hd, hv, hw]
  exact ⟨_, rfl, rfl, rfl⟩

/-- C9 witness: a document with oversized counts 70000 and 300 resolves
successfully to the wrapped values 4464 and 44. -/
theorem resolution_wraps_integers_witness :
    ∃ c, tryFromTable
        [("address", TomlValue.str "0.0.0.0:80"),
         ("database", TomlValue.str "sqlite:x.db"),
         ("microcontroller_count", TomlValue.int 70000),
         ("sensors_per_microcontroller", TomlValue.int 300)] = RustOutcome.ok c ∧
      c.microcontroller_count = ((70000 : Int) % 65536).toNat ∧
      c.sensors_per_microcontroller = ((300 : Int) % 256).toNat :=
  resolution_wraps_integers _ _ _ _ _ rfl rfl rfl rfl

/-- C10: whenever a file exists at the default path but converting it to
a configuration fails with an error (unreadable file or malformed
document), `ServerConfig::new` panics through `unwrap` with the
underlying message instead of returning the error to the caller; and
`new` can never return an error value, whatever the file state. -/
theorem new_panics_on_conversion_failure (fs : FileState) (e : IOError)
    (hex : fs ≠ FileState.absent)
    (hfail : tryFromPathBuf fs = RustOutcome.err e) :
    ServerConfig.new fs =
      RustOutcome.panicked ("called Result::unwrap() on an Err value: " ++ e.msg) ∧
    ∀ fs2 e2, ServerConfig.new fs2 ≠ RustOutcome.err e2 := by
  constructor
  · cases fs with
    | absent => exact absurd rfl hex
    | unreadable e0 =>
        simp only [ServerConfig.new]
        rw [hfail]
    | readable parsed =>
        simp only [ServerConfig.new]
        rw [hfail]
  · intro fs2 e2
    cases fs2 with
    | absent => simp [ServerConfig.new]
    | unreadable e0 => simp [ServerConfig.new, tryFromPathBuf]
    | readable parsed =>
        cases parsed with
        | error diag => simp [ServerConfig.new, tryFromPathBuf]
        | ok t =>
            simp only [ServerConfig.new, tryFromPathBuf]
            cases h : tryFromTable t with
            | ok c => simp
            | err e3 => exact absurd h (tryFromTable_ne_err t e3)
            | panicked m => simp

/-- C10 witness: a readable but malformed file makes `new` panic with
the wrapped diagnostic, and `new` never returns an error value. -/
theorem new_panics_on_conversion_failure_witness :
    ServerConfig.new (FileState.readable (Except.error "bad toml")) =
      RustOutcome.panicked
        ("called Result::unwrap() on an Err value: " ++
          ({ kind := "InvalidInput", msg := "bad toml" } : IOError).msg) ∧
    ∀ fs2 e2, ServerConfig.new fs2 ≠ RustOutcome.err e2 :=
  new_panics_on_conversion_failure (FileState.readable (Except.error "bad toml"))
    { kind := "InvalidInput", msg := "bad toml" }
    (fun h => FileState.noConfusion h) rfl

/-- Helper: length of the microcontroller-major pair list. -/
theorem sensorPairs_length (M S : Nat) : (sensorPairs M S).length = M * S := by
  induction M with
  | zero => simp [sensorPairs]
  | succ n ih =>
    unfold sensorPairs at ih ⊢
    rw [List.range_succ, List.flatMap_append, List.length_append, ih]
    simp [Nat.succ_mul]

/-- Helper: membership in the microcontroller-major pair list. -/
theorem sensorPairs_mem (M S : Nat) (p : Nat × Nat) :
    p ∈ sensorPairs M S ↔ p.1 < M ∧ p.2 < S := by
  obtain ⟨a, b⟩ := p
  unfold sensorPairs
  simp [List.mem_flatMap, List.mem_map, List.mem_range]

/-- Helper: the microcontroller-major pair list has no duplicates. -/
theorem sensorPairs_nodup (M S : Nat) : (sensorPairs M S).Nodup := by
  induction M with
  | zero => simp [sensorPairs]
  | succ n ih =>
    unfold sensorPairs at ih ⊢
    rw [List.range_succ, List.flatMap_append]
    refine List.Nodup.append ih ?_ ?_
    · simp only [List.flatMap_cons, List.flatMap_nil, List.append_nil]
      exact List.Nodup.map (fun a b h => by simpa using h) (List.nodup_range S)
    · intro p hp1 hp2
      have h1 : p.1 < n := ((sensorPairs_mem n S p).mp hp1).1
      have h2 : p.1 = n := by
        simp only [List.flatMap_cons, List.flatMap_nil, List.append_nil, List.mem_map] at hp2
        obtain ⟨s, _, rfl⟩ := hp2
        rfl
      omega

/-- Helper: behaviour of the inner seeding loop on fresh sensor ids:
every insert succeeds, the sensor rows of microcontroller `m` are
appended in order, and the issued statements are recorded in order. -/
theorem seedSensors_spec (m : Nat) (ss : List Nat) (st : RunState)
    (hT : st.db.hasSensors = true)
    (hM : m ∈ st.db.micros)
    (hnd : ss.Nodup)
    (hF : ∀ s ∈ ss, (m, s) ∉ st.db.sensors) :
    seedSensors m ss st = RunResult.ok
      { db := { st.db with sensors := st.db.sensors ++ ss.map (fun s => (m, s)) }
        ops := st.ops ++ ss.map (fun s => DbOp.insertSensorOp m s) } := by
  induction ss generalizing st with
  | nil => simp [seedSensors]
  | cons s rest ih =>
    have hmem : (m, s) ∉ st.db.sensors := hF s (List.mem_cons_self _ _)
    have hstep : insertSensor st.db m s =
        SqlResult.ok { st.db with sensors := st.db.sensors ++ [(m, s)] } := by
      unfold insertSensor
      rw [if_neg (by simp [hT]), if_neg hmem, if_neg (not_not_intro hM)]
    have hrest : ∀ s2 ∈ rest, (m, s2) ∉ st.db.sensors ++ [(m, s)] := by
      intro s2 hs2
      have hne : s2 ≠ s := by
        intro hcon
        subst hcon
        exact (List.nodup_cons.mp hnd).1 hs2
      simp only [List.mem_append, List.mem_singleton, not_or]
      exact ⟨hF s2 (List.mem_cons_of_mem _ hs2), by simp [hne]⟩
    simp only [seedSensors, hstep]
    rw [ih { db := { st.db with sensors := st.db.sensors ++ [(m, s)] }
             ops := st.ops ++ [DbOp.insertSensorOp m s] }
        hT hM (List.nodup_cons.mp hnd).2 hrest]
    simp [List.append_assoc]

/-- Helper: behaviour of the outer seeding loop on fresh
microcontroller ids: every insert succeeds and the rows and issued
statements accumulate in microcontroller-major order, each
microcontroller row before its sensor rows. -/
theorem seedMicros_spec (S : Nat) (ms : List Nat) (st : RunState)
    (hTm : st.db.hasMicrocontrollers = true)
    (hTs : st.db.hasSensors = true)
    (hnd : ms.Nodup)
    (hFm : ∀ m ∈ ms, m ∉ st.db.micros)
    (hFs : ∀ m ∈ ms, ∀ s, (m, s) ∉ st.db.sensors) :
    seedMicros S ms st = RunResult.ok
      { db := { st.db with
                micros := st.db.micros ++ ms
                sensors := st.db.sensors ++
                  ms.flatMap (fun m => (List.range S).map (fun s => (m, s))) }
        ops := st.ops ++ ms.flatMap
          (fun m => DbOp.insertMicroOp m ::
            (List.range S).map (fun s => DbOp.insertSensorOp m s)) } := by
  induction ms generalizing st with
  | nil => simp [seedMicros]
  | cons m rest ih =>
    have hstep : insertMicro st.db m =
        SqlResult.ok { st.db with micros := st.db.micros ++ [m] } := by
      unfold insertMicro
      rw [if_neg (by simp [hTm]), if_neg (hFm m (List.mem_cons_self _ _))]
    have hnodup := List.nodup_cons.mp hnd
    simp only [seedMicros, hstep]
    rw [seedSensors_spec m (List.range S)
        { db := { st.db with micros := st.db.micros ++ [m] }
          ops := st.ops ++ [DbOp.insertMicroOp m] }
        hTs (by simp) (List.nodup_range S)
        (fun s _ => hFs m (List.mem_cons_self _ _) s)]
    have hFm2 : ∀ m2 ∈ rest, m2 ∉ st.db.micros ++ [m] := by
      intro m2 hm2
      have hne : m2 ≠ m := by
        intro hcon
        subst hcon
        exact hnodup.1 hm2
      simp only [List.mem_append, List.mem_singleton, not_or]
      exact ⟨hFm m2 (List.mem_cons_of_mem _ hm2), hne⟩
    have hFs2 : ∀ m2 ∈ rest, ∀ s,
        (m2, s) ∉ st.db.sensors ++ (List.range S).map (fun s => (m, s)) := by
      intro m2 hm2 s
      have hne : m2 ≠ m := by
        intro hcon
        subst hcon
        exact hnodup.1 hm2
      simp only [List.mem_append, List.mem_map, not_or]
      refine ⟨hFs m2 (List.mem_cons_of_mem _ hm2) s, ?_⟩
      rintro ⟨s2, _, heq⟩
      exact hne (congrArg Prod.fst heq).symm
    show seedMicros S rest
        { db := { st.db with
                  micros := st.db.micros ++ [m]
                  sensors := st.db.sensors ++ (List.range S).map (fun s => (m, s)) }
          ops := st.ops ++ [DbOp.insertMicroOp m] ++
            (List.range S).map (fun s => DbOp.insertSensorOp m s) } = _
    rw [ih { db := { st.db with
                     micros := st.db.micros ++ [m]
                     sensors := st.db.sensors ++ (List.range S).map (fun s => (m, s)) }
             ops := st.ops ++ [DbOp.insertMicroOp m] ++
               (List.range S).map (fun s => DbOp.insertSensorOp m s) }
        hTm hTs hnodup.2 hFm2 hFs2]
    simp [List.append_assoc]

/-- Helper: on a database with none of the three tables, `server_init`
creates the schema, seeds every microcontroller/sensor pair, closes the
pool and does not panic; the final state and the issued statements in
closed form. -/
theorem server_init_fresh_eq (cfg : ServerConfig) (db0 : DBState)
    (h1 : db0.hasMicrocontrollers = false) (h2 : db0.hasSensors = false)
    (h3 : db0.hasSensorData = false) :
    server_init cfg db0 =
      { db := { hasMicrocontrollers := true
                hasSensors := true
                hasSensorData := true
                micros := List.range cfg.microcontroller_count
                sensors := sensorPairs cfg.microcontroller_count cfg.sensors_per_microcontroller
                sensorData := [] }
        ops := seedOps cfg.microcontroller_count cfg.sensors_per_microcontroller
        closed := true
        panicMsg := none } := by
  have hbatch : execCreateBatch db0 = SqlResult.ok
      { hasMicrocontrollers := true
        hasSensors := true
        hasSensorData := true
        micros := []
        sensors := []
        sensorData := [] } := by
    simp [execCreateBatch, createMicrocontrollersTable, createSensorsTable,
      createSensorDataTable, h1, h2, h3]
  simp only [server_init, hbatch]
  rw [seedMicros_spec cfg.sensors_per_microcontroller
      (List.range cfg.microcontroller_count)
      { db := { hasMicrocontrollers := true
                hasSensors := true
                hasSensorData := true
                micros := []
                sensors := []
                sensorData := [] }
        ops := [] }
      rfl rfl (List.nodup_range cfg.microcontroller_count)
      (fun m _ hmem => by simp at hmem)
      (fun m _ s hmem => by simp at hmem)]
  simp [sensorPairs, seedOps]

/-- C2: after a successful run of provisioning on a database holding
none of the three tables, with `microcontroller_count = M` and
`sensors_per_microcontroller = S`, the `Microcontrollers` table holds
exactly `M` rows with ids `0..M-1`, the `Sensors` table holds exactly
`M*S` rows whose `m_id` lies in `0..M-1` and `s_id` in `0..S-1` with no
duplicate pair, the `SensorData` table is empty, and the inserts were
issued microcontroller-major, sensor-minor, each microcontroller row
before its sensor rows. -/
theorem server_init_provisions (cfg : ServerConfig) (db0 : DBState)
    (h1 : db0.hasMicrocontrollers = false) (h2 : db0.hasSensors = false)
    (h3 : db0.hasSensorData = false) :
    (server_init cfg db0).panicMsg = none ∧
    (server_init cfg db0).db.micros = List.range cfg.microcontroller_count ∧
    (server_init cfg db0).db.micros.length = cfg.microcontroller_count ∧
    (∀ i, i ∈ (server_init cfg db0).db.micros ↔ i < cfg.microcontroller_count) ∧
    (server_init cfg db0).db.sensors.length =
      cfg.microcontroller_count * cfg.sensors_per_microcontroller ∧
    (∀ p, p ∈ (server_init cfg db0).db.sensors ↔
      p.1 < cfg.microcontroller_count ∧ p.2 < cfg.sensors_per_microcontroller) ∧
    (server_init cfg db0).db.sensors.Nodup ∧
    (server_init cfg db0).db.sensorData = [] ∧
    (server_init cfg db0).ops =
      seedOps cfg.microcontroller_count cfg.sensors_per_microcontroller := by
  rw [server_init_fresh_eq cfg db0 h1 h2 h3]
  refine ⟨rfl, rfl, by simp, by simp, ?_, ?_, ?_, rfl, rfl⟩
  · exact sensorPairs_length cfg.microcontroller_count cfg.sensors_per_microcontroller
  · exact sensorPairs_mem cfg.microcontroller_count cfg.sensors_per_microcontroller
  · exact sensorPairs_nodup cfg.microcontroller_count cfg.sensors_per_microcontroller

/-- C2 witness: provisioning a fresh database with 2 microcontrollers
of 3 sensors each yields exactly the expected rows and statement
order. -/
theorem server_init_provisions_witness :
    (server_init (ServerConfig.mk "127.0.0.1:3000" "sqlite:w_orchid.db" 2 3)
      DBState.fresh).panicMsg = none ∧
    (server_init (ServerConfig.mk "127.0.0.1:3000" "sqlite:w_orchid.db" 2 3)
      DBState.fresh).db.micros = List.range 2 ∧
    (server_init (ServerConfig.mk "127.0.0.1:3000" "sqlite:w_orchid.db" 2 3)
      DBState.fresh).db.micros.length = 2 ∧
    (∀ i, i ∈ (server_init (ServerConfig.mk "127.0.0.1:3000" "sqlite:w_orchid.db" 2 3)
      DBState.fresh).db.micros ↔ i < 2) ∧
    (server_init (ServerConfig.mk "127.0.0.1:3000" "sqlite:w_orchid.db" 2 3)
      DBState.fresh).db.sensors.length = 2 * 3 ∧
    (∀ p, p ∈ (server_init (ServerConfig.mk "127.0.0.1:3000" "sqlite:w_orchid.db" 2 3)
      DBState.fresh).db.sensors ↔ p.1 < 2 ∧ p.2 < 3) ∧
    (server_init (ServerConfig.mk "127.0.0.1:3000" "sqlite:w_orchid.db" 2 3)
      DBState.fresh).db.sensors.Nodup ∧
    (server_init (ServerConfig.mk "127.0.0.1:3000" "sqlite:w_orchid.db" 2 3)
      DBState.fresh).db.sensorData = [] ∧
    (server_init (ServerConfig.mk "127.0.0.1:3000" "sqlite:w_orchid.db" 2 3)
      DBState.fresh).ops = seedOps 2 3 :=
  server_init_provisions (ServerConfig.mk "127.0.0.1:3000" "sqlite:w_orchid.db" 2 3)
    DBState.fresh rfl rfl rfl

/-- C6: invoking provisioning against a database that already holds the
three tables fails at the schema-creation step with the
table-already-exists condition, before any seeding insert is issued,
leaving the database unchanged — it neither silently succeeds nor
duplicates rows. -/
theorem server_init_not_idempotent (cfg : ServerConfig) (db0 : DBState)
    (h1 : db0.hasMicrocontrollers = true) (h2 : db0.hasSensors = true)
    (h3 : db0.hasSensorData = true) :
    server_init cfg db0 =
      { db := db0
        ops := []
        closed := false
        panicMsg := some
          "Failed to create database tables. table Microcontrollers already exists" } := by
  unfold server_init execCreateBatch createMicrocontrollersTable
  rw [if_pos h1]
  simp

/-- C6 witness: re-running provisioning against an already-provisioned
database panics at table creation with no insert issued. -/
theorem server_init_not_idempotent_witness :
    server_init ServerConfig.default
      (DBState.mk true true true [0] [(0, 0), (0, 1)] []) =
      InitResult.mk (DBState.mk true true true [0] [(0, 0), (0, 1)] []) [] false
        (some "Failed to create database tables. table Microcontrollers already exists") :=
  server_init_not_idempotent ServerConfig.default
    (DBState.mk true true true [0] [(0, 0), (0, 1)] []) rfl rfl rfl

/-- C7: on the success path `server_init` closes the pool before
returning; on any failing step it panics — terminating the process
without ever reaching the close call — and performs no rollback: rows
are untouched and every table that existed before, or was created
before the failing statement, still exists in the final state. -/
theorem server_init_closes_or_terminates (cfg : ServerConfig) (db0 : DBState)
    (hwf : db0.wf) :
    ((server_init cfg db0).panicMsg = none → (server_init cfg db0).closed = true) ∧
    ((server_init cfg db0).panicMsg ≠ none →
      (server_init cfg db0).closed = false ∧
      (server_init cfg db0).db.micros = db0.micros ∧
      (server_init cfg db0).db.sensors = db0.sensors ∧
      (server_init cfg db0).db.sensorData = db0.sensorData ∧
      (db0.hasMicrocontrollers = true →
        (server_init cfg db0).db.hasMicrocontrollers = true) ∧
      (db0.hasSensors = true → (server_init cfg db0).db.hasSensors = true) ∧
      (db0.hasSensorData = true → (server_init cfg db0).db.hasSensorData = true)) := by
  obtain ⟨w1, w2, w3⟩ := hwf
  cases hM : db0.hasMicrocontrollers with
  | true =>
    unfold server_init execCreateBatch createMicrocontrollersTable
    rw [if_pos hM]
    simp [hM]
  | false =>
    cases hS : db0.hasSensors with
    | true =>
      simp [server_init, execCreateBatch, createMicrocontrollersTable,
        createSensorsTable, hM, hS, w1 hM]
    | false =>
      cases hD : db0.hasSensorData with
      | true =>
        simp [server_init, execCreateBatch, createMicrocontrollersTable,
          createSensorsTable, createSensorDataTable, hM, hS, hD, w1 hM, w2 hS]
      | false =>
        rw [server_init_fresh_eq cfg db0 hM hS hD]
        simp

/-- C7 witness: on a fresh well-formed database the run succeeds and
the pool is closed. -/
theorem server_init_closes_or_terminates_witness :
    ((server_init ServerConfig.default DBState.fresh).panicMsg = none →
      (server_init ServerConfig.default DBState.fresh).closed = true) ∧
    ((server_init ServerConfig.default DBState.fresh).panicMsg ≠ none →
      (server_init ServerConfig.default DBState.fresh).closed = false ∧
      (server_init ServerConfig.default DBState.fresh).db.micros = DBState.fresh.micros ∧
      (server_init ServerConfig.default DBState.fresh).db.sensors = DBState.fresh.sensors ∧
      (server_init ServerConfig.default DBState.fresh).db.sensorData =
        DBState.fresh.sensorData ∧
      (DBState.fresh.hasMicrocontrollers = true →
        (server_init ServerConfig.default DBState.fresh).db.hasMicrocontrollers = true) ∧
      (DBState.fresh.hasSensors = true →
        (server_init ServerConfig.default DBState.fresh).db.hasSensors = true) ∧
      (DBState.fresh.hasSensorData = true →
        (server_init ServerConfig.default DBState.fresh).db.hasSensorData = true)) :=
  server_init_closes_or_terminates ServerConfig.default DBState.fresh
    ⟨fun _ => rfl, fun _ => rfl, fun _ => rfl⟩

/-- C8: over the provisioned schema, deleting the `Microcontrollers`
row with id `i` cascades along the foreign key of `Sensors` and, for
`SensorData`, along both its composite foreign key to `Sensors` and its
direct foreign key to `Microcontrollers`: exactly the rows with
`m_id = i` disappear from `Sensors` and `SensorData`, every row of any
other microcontroller survives, and the tables themselves remain. -/
theorem cascadeDelete_removes_exactly_m_id (db : DBState) (i : Nat) :
    (∀ m, m ∈ (cascadeDeleteMicrocontroller db i).micros ↔ m ∈ db.micros ∧ m ≠ i) ∧
    (∀ p, p ∈ (cascadeDeleteMicrocontroller db i).sensors ↔ p ∈ db.sensors ∧ p.1 ≠ i) ∧
    (∀ r, r ∈ (cascadeDeleteMicrocontroller db i).sensorData ↔
      r ∈ db.sensorData ∧ r.m_id ≠ i) ∧
    (cascadeDeleteMicrocontroller db i).hasMicrocontrollers = db.hasMicrocontrollers ∧
    (cascadeDeleteMicrocontroller db i).hasSensors = db.hasSensors ∧
    (cascadeDeleteMicrocontroller db i).hasSensorData = db.hasSensorData := by
  refine ⟨?_, ?_, ?_, rfl, rfl, rfl⟩
  · intro m
    simp [cascadeDeleteMicrocontroller, List.mem_filter]
  · intro p
    simp [cascadeDeleteMicrocontroller, List.mem_filter]
  · intro r
    simp only [cascadeDeleteMicrocontroller, List.mem_filter, decide_eq_true_eq]
    constructor
    · rintro ⟨hmem, hnot⟩
      exact ⟨hmem, fun hcon => hnot (Or.inr hcon)⟩
    · rintro ⟨hmem, hne⟩
      refine ⟨hmem, ?_⟩
      rintro (hdead | heq)
      · exact hne hdead.2
      · exact hne heq
